import Mathlib

/-!
Shallow embedding of the `ignition-mcp` repository's core subsystem:
the OpenAPI-to-tool generator (`src/ignition_mcp/api_generator.py`),
the tool dispatcher (`src/ignition_mcp/ignition_tools.py`) and the
authenticated client (`src/ignition_mcp/ignition_client.py`).

Python dictionaries are modelled as association lists in insertion
order (Python dicts preserve insertion order and have unique keys).
Python JSON-ish values are modelled by the inductive `Value`.
-/

namespace IgnitionMcp

/-- JSON-like Python values, as they travel through argument mappings,
request bodies and decoded responses. -/
inductive Value where
  | str (s : String)
  | int (n : Int)
  | bool (b : Bool)
  | null
  | arr (xs : List Value)
  | obj (kvs : List (String × Value))
deriving Repr

/-- Python truthiness (`bool(v)`) for the modelled values: empty string,
zero, `False`, `None`, empty list and empty dict are falsy. -/
def pyTruthy : Value → Bool
  | .str s => s ≠ ""
  | .int n => n ≠ 0
  | .bool b => b
  | .null => false
  | .arr xs => !xs.isEmpty
  | .obj kvs => !kvs.isEmpty

mutual

/-- Python `repr` of a modelled value, as produced for instance by
`str(some_dict)`: strings single-quoted, `True`/`False`/`None`,
lists `[a, b]`, dicts `\x7b'k': v\x7d`. -/
def pyRepr : Value → String
  | .str s => "'" ++ s ++ "'"
  | .int n => toString n
  | .bool b => if b then "True" else "False"
  | .null => "None"
  | .arr xs => "[" ++ String.intercalate ", " (pyReprList xs) ++ "]"
  | .obj kvs => "\x7b" ++ String.intercalate ", " (pyReprPairs kvs) ++ "\x7d"

/-- Elementwise `pyRepr` over a list (Python list display items). -/
def pyReprList : List Value → List String
  | [] => []
  | v :: vs => pyRepr v :: pyReprList vs

/-- Elementwise `'key': repr(value)` over dict items. -/
def pyReprPairs : List (String × Value) → List String
  | [] => []
  | (k, v) :: kvs => ("'" ++ k ++ "': " ++ pyRepr v) :: pyReprPairs kvs

end

/-- Python `str(v)`: the raw string for a string value, `repr` otherwise.
Used when a value is interpolated into a path template. -/
def pyStr : Value → String
  | .str s => s
  | v => pyRepr v

/-! ### Python string primitives

The text operations the code uses (`lower`, `upper`, `replace`,
`split`, `strip`, `startswith`, `in`, slicing) are modelled directly
over the character list of a `String`, with the semantics of the
corresponding Python `str` methods (the repository's strings are
ASCII, where `Char.toLower`/`Char.toUpper` agree with Python). -/

/-- Python `s.lower()`. -/
def pyLower (s : String) : String := ⟨s.data.map Char.toLower⟩

/-- Python `s.upper()`. -/
def pyUpper (s : String) : String := ⟨s.data.map Char.toUpper⟩

/-- Python `s[:n]` (by code point, as Python slices). -/
def pyTake (s : String) (n : Nat) : String := ⟨s.data.take n⟩

/-- Python `s[n:]` (by code point, as Python slices). -/
def pyDrop (s : String) (n : Nat) : String := ⟨s.data.drop n⟩

/-- Python `s.startswith(pre)`. -/
def pyStartsWith (s pre : String) : Bool := pre.data.isPrefixOf s.data

/-- Whether `sub` occurs as a contiguous run inside a character list. -/
def containsList (sub : List Char) : List Char → Bool
  | [] => sub.isEmpty
  | c :: cs => sub.isPrefixOf (c :: cs) || containsList sub cs

/-- Python `sub in s` (substring containment). -/
def pyContains (s sub : String) : Bool := containsList sub.data s.data

/-- Splitting a character list on one separator character; mirrors
Python `s.split(sep)` for a one-character separator (the code only
splits on `/`), including the empty leading/trailing pieces. -/
def splitOnChar (sep : Char) : List Char → List (List Char)
  | [] => [[]]
  | c :: cs =>
      if c = sep then [] :: splitOnChar sep cs
      else
        match splitOnChar sep cs with
        | [] => [[c]]
        | g :: gs => (c :: g) :: gs

/-- Python `s.split("/")`. -/
def pySplitSlash (s : String) : List String :=
  (splitOnChar '/' s.data).map String.mk

/-- Strips `pat` off the front of `s`, returning the remainder when it
is a prefix. -/
def stripPre? : List Char → List Char → Option (List Char)
  | [], s => some s
  | _ :: _, [] => none
  | p :: ps, c :: cs => if p = c then stripPre? ps cs else none

/-- Python `s.replace(pat, rep)` on character lists: all occurrences,
scanned left to right, non-overlapping. The `fuel` argument makes the
recursion structural; `fuel = s.length` processes all of `s` whenever
`pat` is non-empty (every replacement in the code uses a non-empty
pattern). -/
def replaceFuel (pat rep : List Char) : Nat → List Char → List Char
  | _, [] => []
  | 0, s => s
  | Nat.succ fuel, c :: cs =>
      match stripPre? pat (c :: cs) with
      | some rest => rep ++ replaceFuel pat rep fuel rest
      | none => c :: replaceFuel pat rep fuel cs

/-- Python `s.replace(pat, rep)`. -/
def pyReplace (s pat rep : String) : String :=
  ⟨replaceFuel pat.data rep.data s.data.length s.data⟩

/-- Python `s.strip("/")`: remove all leading and trailing `/`. -/
def stripSlashes (s : String) : String :=
  ⟨((s.data.dropWhile (· = '/')).reverse.dropWhile (· = '/')).reverse⟩

/-- Python `s.lstrip("/")`: remove all leading `/`. -/
def lstripSlashes (s : String) : String :=
  ⟨s.data.dropWhile (· = '/')⟩

/-- Python string comparison (`<=`) on character lists: lexicographic
by code point, a proper prefix comparing below its extensions. -/
def charListLe : List Char → List Char → Bool
  | [], _ => true
  | _ :: _, [] => false
  | a :: as, b :: bs => if a = b then charListLe as bs else decide (a < b)

/-- Python `s <= t`, the key order of `list.sort` on path strings. -/
def pyStrLe (s t : String) : Bool := charListLe s.data t.data

/-! ## Generator data model (`api_generator.py`)

An OpenAPI operation, restricted to the fields the generator reads:
`operationId`, `summary`, `deprecated`, `parameters`, `requestBody`. -/

/-- One entry of an operation's `parameters` list. `schemaType` is the
`type` field of the parameter's `schema` object when present; the code's
defaults (`schema` missing entirely, or `type` missing inside it) both
collapse to `none` here, since both yield `"string"`. -/
structure Param where
  name : String
  schemaType : Option String
  description : Option String
  required : Bool
deriving Repr

/-- One property of a JSON request body's object schema. -/
structure BodyProp where
  name : String
  propType : Option String
  description : Option String
deriving Repr

/-- An OpenAPI operation. `requestBody = some props` models a request
body with `application/json` content whose schema has `type: object`
and the given properties; every other shape of request body contributes
no schema properties in the code and is modelled as `none`. -/
structure Operation where
  operationId : Option String
  summary : Option String
  deprecated : Bool
  parameters : List Param
  requestBody : Option (List BodyProp)
deriving Repr

/-- One property of the generated input schema. -/
structure PropertySchema where
  name : String
  type : String
  description : String
deriving Repr, DecidableEq

/-- The generated `inputSchema` (always `type: object` with
`additionalProperties: false` in the code; only the varying parts are
modelled). -/
structure InputSchema where
  properties : List PropertySchema
  required : List String
deriving Repr, DecidableEq

/-- Embedding of `IgnitionAPIGenerator._extract_parameters`: declared
parameters become properties (type defaulting to `"string"`, description
defaulting to `"<name> parameter"`), required parameter names are
collected, and JSON-object body properties are emitted under a `body_`
key prefix with description defaulting to `"<name> in request body"`. -/
def extractParameters (op : Operation) : InputSchema :=
  let paramProps := op.parameters.map (fun p =>
    { name := p.name
      type := p.schemaType.getD "string"
      description := p.description.getD (p.name ++ " parameter") : PropertySchema })
  let required := (op.parameters.filter (·.required)).map (·.name)
  let bodyProps := match op.requestBody with
    | none => []
    | some props => props.map (fun bp =>
        { name := "body_" ++ bp.name
          type := bp.propType.getD "string"
          description := bp.description.getD (bp.name ++ " in request body") : PropertySchema })
  { properties := paramProps ++ bodyProps, required := required }

/-- Path-derived branch of `IgnitionAPIGenerator._sanitize_tool_name`:
strip surrounding slashes, split on `/`, drop segments equal to
`data`/`api`/`v1`, delete `\x7b` and `\x7d` characters from the remaining
segments, join with `_`, replace `-` with `_` in the joined string,
prepend the lower-cased method and an underscore, and keep the first
50 characters. -/
def pathDerivedName (path method : String) : String :=
  let parts := pySplitSlash (stripSlashes path)
  let parts := parts.filter (fun p => !(p == "data" || p == "api" || p == "v1"))
  let parts := parts.map (fun p => pyReplace (pyReplace p "\x7b" "") "\x7d" "")
  let toolName := pyLower method ++ "_" ++ pyReplace (String.intercalate "_" parts) "-" "_"
  pyTake toolName 50

/-- Embedding of `IgnitionAPIGenerator._sanitize_tool_name`: a truthy
(non-empty) `operationId` is normalised by replacing `-` and space with
`_` and lower-casing; otherwise the name is derived from the path.
(The Python guard `if operation_id:` treats an empty string like an
absent one.) -/
def sanitizeToolName (path method : String) (operationId : Option String) : String :=
  match operationId with
  | some oid =>
      if oid ≠ "" then pyLower (pyReplace (pyReplace oid "-" "_") " " "_")
      else pathDerivedName path method
  | none => pathDerivedName path method

/-- The fixed allow-list of management-plane path prefixes from
`IgnitionAPIGenerator._should_include_endpoint`. -/
def managementPatterns : List String :=
  [ "/data/api/v1/projects"
  , "/data/api/v1/tags"
  , "/data/api/v1/devices"
  , "/data/api/v1/connections"
  , "/data/api/v1/modules"
  , "/data/api/v1/certificates"
  , "/data/api/v1/users"
  , "/data/api/v1/roles"
  , "/system/gateway"
  , "/data/api/v1/activation"
  , "/data/api/v1/backup"
  , "/data/api/v1/logs" ]

/-- Embedding of `IgnitionAPIGenerator._should_include_endpoint`:
deprecated operations are excluded; otherwise an operation is included
exactly when its path starts with one of the allow-listed prefixes.
(The `method` argument is unused, as in the source.) -/
def shouldIncludeEndpoint (path : String) (_method : String) (op : Operation) : Bool :=
  if op.deprecated then false
  else managementPatterns.any (fun pat => pyStartsWith path pat)

/-- A generated tool definition: name, description, input schema and the
private `_ignition_*` routing metadata. -/
structure Tool where
  name : String
  description : String
  inputSchema : InputSchema
  ignitionPath : String
  ignitionMethod : String
  ignitionOperation : Operation
deriving Repr

/-- A loaded OpenAPI document, restricted to what `generate_tools`
reads: the `paths` mapping (absent when the document has no `paths`
key), each path mapping method keys to operations. -/
structure OpenApiSpec where
  paths : Option (List (String × List (String × Operation)))
deriving Repr

/-- HTTP method keys that `generate_tools` considers. -/
def httpMethods : List String := ["get", "post", "put", "patch", "delete"]

/-- Builds the tool dictionary for one included operation, as in the
body of the loop in `IgnitionAPIGenerator.generate_tools`. -/
def mkTool (path method : String) (op : Operation) : Tool :=
  { name := sanitizeToolName path method op.operationId
    description := op.summary.getD (pyUpper method ++ " " ++ path)
    inputSchema := extractParameters op
    ignitionPath := path
    ignitionMethod := pyUpper method
    ignitionOperation := op }

/-- Embedding of `IgnitionAPIGenerator.generate_tools`: iterate the
`paths` mapping (defaulting to empty when the key is missing), skip
entries whose lower-cased method key is not an HTTP method, skip
operations rejected by the inclusion policy, build a tool for the rest,
and finally sort the list by the raw path string (Python's stable
`list.sort`, modelled by the stable `List.mergeSort`). -/
def generateTools (spec : OpenApiSpec) : List Tool :=
  let paths := spec.paths.getD []
  let tools := paths.flatMap (fun pe =>
    pe.2.filterMap (fun mo =>
      if pyLower mo.1 ∈ httpMethods then
        if shouldIncludeEndpoint pe.1 mo.1 mo.2 then
          some (mkTool pe.1 mo.1 mo.2)
        else none
      else none))
  tools.mergeSort (fun a b => pyStrLe a.ignitionPath b.ignitionPath)

/-! ## Dispatcher and client (`ignition_tools.py`, `ignition_client.py`) -/

/-- Keyword arguments of an HTTP request issued through
`IgnitionClient._request`: the optional query mapping (`params`), the
optional JSON body (`json`) and the optional extra headers. -/
structure RequestKwargs where
  params : Option (List (String × Value))
  json : Option Value
  headers : Option (List (String × Value))
deriving Repr

/-- One network request handed to the transport: HTTP method, final
path, and keyword arguments. -/
structure NetworkCall where
  method : String
  path : String
  kwargs : RequestKwargs
deriving Repr

/-- A `CallToolResult` reduced to what the dispatcher sets: the text of
its single content block and the `isError` flag. -/
structure ToolResult where
  text : String
  isError : Bool
deriving Repr

/-- One record written through `logging.exception`: the log message and
the exception detail attached to it. -/
structure LogEntry where
  message : String
  exceptionDetail : String
deriving Repr

/-- The observable outcome of one dispatch: the returned result, the
network calls issued (in order) and the log records written. -/
structure DispatchTrace where
  result : ToolResult
  calls : List NetworkCall
  log : List LogEntry
deriving Repr

mutual

/-- JSON serialization of a value, as `json.dumps` renders it (the
`indent=2` whitespace layout is not modelled; no verified property
reads the serialized success text). -/
def jsonDumps : Value → String
  | .str s => "\"" ++ s ++ "\""
  | .int n => toString n
  | .bool b => if b then "true" else "false"
  | .null => "null"
  | .arr xs => "[" ++ String.intercalate ", " (jsonDumpsList xs) ++ "]"
  | .obj kvs => "\x7b" ++ String.intercalate ", " (jsonDumpsPairs kvs) ++ "\x7d"

/-- Elementwise `jsonDumps` over a JSON array's elements. -/
def jsonDumpsList : List Value → List String
  | [] => []
  | v :: vs => jsonDumps v :: jsonDumpsList vs

/-- Elementwise `"key": dumps(value)` over a JSON object's members. -/
def jsonDumpsPairs : List (String × Value) → List String
  | [] => []
  | (k, v) :: kvs => ("\"" ++ k ++ "\": " ++ jsonDumps v) :: jsonDumpsPairs kvs

end

/-- The `\x7bkey\x7d` placeholder looked for in a path template. -/
def braceKey (key : String) : String := "\x7b" ++ key ++ "\x7d"

/-- The three argument buckets of `IgnitionTools._execute_api_call`
together with the progressively substituted path. -/
structure SplitState where
  finalPath : String
  pathParams : List (String × Value)
  bodyParams : List (String × Value)
  queryParams : List (String × Value)
deriving Repr

/-- One iteration of the argument loop of
`IgnitionTools._execute_api_call`: a `body_`-prefixed key is stripped
into the body mapping; a key whose `\x7bkey\x7d` placeholder occurs in
the original path template is substituted into the accumulated path
and recorded as a path parameter; anything else becomes a query
parameter. Mappings are kept in insertion order; argument keys are
unique (they come from a Python dict), so appending models dict
insertion exactly. -/
def routeStep (path : String) (st : SplitState) (kv : String × Value) : SplitState :=
  if pyStartsWith kv.1 "body_" then
    { st with bodyParams := st.bodyParams ++ [(pyDrop kv.1 5, kv.2)] }
  else if pyContains path (braceKey kv.1) then
    { st with finalPath := pyReplace st.finalPath (braceKey kv.1) (pyStr kv.2)
              pathParams := st.pathParams ++ [kv] }
  else
    { st with queryParams := st.queryParams ++ [kv] }

/-- The argument loop of `IgnitionTools._execute_api_call`, run over
the whole argument mapping in insertion order. -/
def routeArguments (path : String) (args : List (String × Value)) : SplitState :=
  args.foldl (routeStep path)
    { finalPath := path, pathParams := [], bodyParams := [], queryParams := [] }

/-- Embedding of `IgnitionTools._execute_api_call`: route the
arguments, then build the request; the query mapping is attached only
when non-empty and the JSON body only when non-empty (Python dict
truthiness), exactly as the `kwargs` construction does. -/
def executeApiCall (tool : Tool) (args : List (String × Value)) : NetworkCall :=
  let st := routeArguments tool.ignitionPath args
  { method := tool.ignitionMethod
    path := st.finalPath
    kwargs :=
      { params := if st.queryParams.isEmpty then none else some st.queryParams
        json := if st.bodyParams.isEmpty then none else some (Value.obj st.bodyParams)
        headers := none } }

/-- Modelled from the spec: the configuration fields
`webdev_tag_endpoint` and `webdev_tag_method` are read by
`ignition_client.py` (`settings.webdev_tag_endpoint`,
`settings.webdev_tag_method`) but their declarations are not among the
repository files under `src/`; per the specification they hold the
configurable WebDev resource path and the configured default HTTP
method of the tag tool. An unset field is the empty string (falsy),
in the style of `ignition_api_key` in `config.py`. -/
structure WebdevSettings where
  webdevTagEndpoint : String
  webdevTagMethod : String
deriving Repr

/-- Exception outcomes of the modelled client helpers: `ValueError`
with its message (caught specially by the custom handler) or any other
exception, e.g. the `AttributeError` a non-string truthy
`resourcePath` raises at `.lstrip` (caught by the handler's generic
`except Exception`). -/
inductive PyErr where
  | valueError (msg : String)
  | otherError (detail : String)
deriving Repr

/-- Embedding of `IgnitionClient._build_webdev_path`: the resource is
the `resourcePath` argument when truthy (it must then be a string, or
Python raises `AttributeError` at `.lstrip`), else the configured
endpoint; leading slashes are stripped; an empty resource raises
`ValueError`. -/
def buildWebdevPath (cfg : WebdevSettings) (resourcePath : Option Value) :
    Except PyErr String := do
  let base ← match resourcePath with
    | some v =>
        if pyTruthy v then
          match v with
          | .str s => pure s
          | _ => throw (PyErr.otherError "AttributeError")
        else pure cfg.webdevTagEndpoint
    | none => pure cfg.webdevTagEndpoint
  let resource := lstripSlashes base
  if resource = "" then
    throw (PyErr.valueError
      ("WebDev tag endpoint not configured. Set IGNITION_MCP_WEBDEV_TAG_ENDPOINT or" ++
       " provide resourcePath."))
  else
    pure ("/system/webdev/" ++ resource)

/-- The `(method or settings.webdev_tag_method or "POST").upper()`
fallback chain of `IgnitionClient.create_or_update_tag` (an empty
string is falsy at each step). -/
def resolveWebdevMethod (cfg : WebdevSettings) (method : Option String) : String :=
  pyUpper
    (match method with
     | some m => if m ≠ "" then m
                 else if cfg.webdevTagMethod ≠ "" then cfg.webdevTagMethod else "POST"
     | none => if cfg.webdevTagMethod ≠ "" then cfg.webdevTagMethod else "POST")

/-- Embedding of `IgnitionClient.create_or_update_tag` composed with
`IgnitionClient.call_webdev`: take the override as the payload when
given, otherwise require a truthy `tag_path` (`ValueError` otherwise)
and assemble `path`/`value` plus the truthy optional fields in
insertion order; resolve the HTTP method through the fallback chain;
build the WebDev path; and produce the request `_request` would issue
(`call_webdev` always passes the JSON payload, and a headers dict that
is empty when none were supplied). -/
def createOrUpdateTagCall (cfg : WebdevSettings)
    (tagPath : Option Value) (value : Value)
    (dataType attributes : Option Value)
    (resourcePath : Option Value) (method : Option String)
    (payloadOverride : Option Value)
    (queryParams : Option (List (String × Value)))
    (headers : Option (List (String × Value)))
    (valueTimestamp quality : Option Value) : Except PyErr NetworkCall := do
  let payload ←
    match payloadOverride with
    | some ov => pure ov
    | none =>
        match tagPath with
        | some tp =>
            if pyTruthy tp then
              pure (Value.obj
                ([("path", tp), ("value", value)]
                  ++ (match dataType with
                      | some dt => if pyTruthy dt then [("dataType", dt)] else []
                      | none => [])
                  ++ (match attributes with
                      | some av => if pyTruthy av then [("attributes", av)] else []
                      | none => [])
                  ++ (match valueTimestamp with
                      | some ts => if pyTruthy ts then [("valueTimestamp", ts)] else []
                      | none => [])
                  ++ (match quality with
                      | some q => if pyTruthy q then [("quality", q)] else []
                      | none => [])))
            else throw (PyErr.valueError
              "tag_path is required when payloadOverride is not provided")
        | none => throw (PyErr.valueError
            "tag_path is required when payloadOverride is not provided")
  let path ← buildWebdevPath cfg resourcePath
  pure { method := resolveWebdevMethod cfg method
         path := path
         kwargs := { params := queryParams
                     json := some payload
                     headers := some (headers.getD []) } }

/-- Embedding of `IgnitionTools._error_result`, together with the
empty call and log traces of a purely local reply. -/
def errorTrace (msg : String) : DispatchTrace :=
  { result := { text := msg, isError := true }, calls := [], log := [] }

/-- Whether a value is a Python `dict` or `list`
(`isinstance(v, (dict, list))`). -/
def isObjOrArr : Value → Bool
  | .obj _ => true
  | .arr _ => true
  | _ => false

/-- Whether a value is a Python `dict` (`isinstance(v, dict)`). -/
def isObj : Value → Bool
  | .obj _ => true
  | _ => false

/-- Whether a value is a Python `str` (`isinstance(v, str)`). -/
def isStrVal : Value → Bool
  | .str _ => true
  | _ => false

/-- The entries of an argument that has been checked to be a dict
(`none` when the argument was absent). -/
def objEntries : Option Value → Option (List (String × Value))
  | some (.obj kvs) => some kvs
  | _ => none

/-- The string of an argument that has been checked to be a string
(`none` when the argument was absent). -/
def strContent : Option Value → Option String
  | some (.str s) => some s
  | _ => none

/-- The `try`/`except` tail of `IgnitionTools._tool_create_or_update_tag`:
a `ValueError` from the client surfaces as its own message; any other
exception becomes the generic WebDev error with a log record; a
successful client call issues the one network request, whose transport
failure is caught by the same generic `except Exception`. -/
def tagCallOutcome (transport : NetworkCall → Except String Value) :
    Except PyErr NetworkCall → DispatchTrace
  | .error (.valueError msg) => errorTrace msg
  | .error (.otherError detail) =>
      { result := { text := "Error executing create_or_update_tag." ++
                            " Please verify the WebDev configuration."
                    isError := true }
        calls := []
        log := [{ message := "Error executing create_or_update_tag"
                  exceptionDetail := detail }] }
  | .ok call =>
      match transport call with
      | .ok v =>
          { result := { text := jsonDumps v, isError := false }
            calls := [call], log := [] }
      | .error e =>
          { result := { text := "Error executing create_or_update_tag." ++
                                " Please verify the WebDev configuration."
                        isError := true }
            calls := [call]
            log := [{ message := "Error executing create_or_update_tag"
                      exceptionDetail := e }] }

/-- Embedding of `IgnitionTools._tool_create_or_update_tag`: the chain
of local shape checks, then the tagPath and value requirements, each
returning a validation error before any network activity; then the
client call and its exception handling (`tagCallOutcome`). -/
def toolCreateOrUpdateTag (cfg : WebdevSettings)
    (transport : NetworkCall → Except String Value)
    (args : List (String × Value)) : DispatchTrace :=
  let payloadOverride := args.lookup "payloadOverride"
  if payloadOverride.any (fun v => !isObjOrArr v) then
    errorTrace "payloadOverride must be an object or array when provided"
  else
  let attributes := args.lookup "attributes"
  if attributes.any (fun v => !isObj v) then
    errorTrace "attributes must be an object when provided"
  else
  let headers := args.lookup "headers"
  if headers.any (fun v => !isObj v) then
    errorTrace "headers must be an object of string values when provided"
  else
  let queryParams := args.lookup "queryParams"
  if queryParams.any (fun v => !isObj v) then
    errorTrace "queryParams must be an object when provided"
  else
  let method := args.lookup "httpMethod"
  if method.any (fun v => !isStrVal v) then
    errorTrace "httpMethod must be a string when provided"
  else
  let tagPath := args.lookup "tagPath"
  if payloadOverride.isNone && !(tagPath.any pyTruthy) then
    errorTrace "tagPath is required when payloadOverride is not provided"
  else
  if payloadOverride.isNone && (args.lookup "value").isNone then
    errorTrace "value is required when payloadOverride is not provided"
  else
    tagCallOutcome transport
      (createOrUpdateTagCall cfg tagPath ((args.lookup "value").getD .null)
        (args.lookup "dataType") attributes (args.lookup "resourcePath")
        (strContent method) payloadOverride (objEntries queryParams)
        (objEntries headers) (args.lookup "valueTimestamp") (args.lookup "quality"))

/-- Embedding of `IgnitionTools.call_tool`: custom tool names are
checked first (the dispatcher registers exactly one custom tool,
`create_or_update_tag`, and its handler); then the generated cache is
searched for the first tool with the requested name; a miss returns
the "not found" error result; a hit executes the routed API call,
wrapping transport success as serialized JSON and any transport
exception as the generic "contact support" error, plus a log record
carrying the tool name, the rendered argument mapping and the
exception detail. -/
def callTool (cfg : WebdevSettings) (toolsCache : List Tool)
    (transport : NetworkCall → Except String Value)
    (name : String) (args : List (String × Value)) : DispatchTrace :=
  if name = "create_or_update_tag" then
    toolCreateOrUpdateTag cfg transport args
  else
    match toolsCache.find? (fun t => t.name == name) with
    | none => errorTrace ("Tool '" ++ name ++ "' not found")
    | some tool =>
        match transport (executeApiCall tool args) with
        | .ok v =>
            { result := { text := jsonDumps v, isError := false }
              calls := [executeApiCall tool args], log := [] }
        | .error e =>
            { result := { text := "Error executing " ++ name ++ ". Please contact support."
                          isError := true }
              calls := [executeApiCall tool args]
              log := [{ message := "Error executing tool '" ++ name ++
                                   "' with arguments " ++ pyRepr (Value.obj args)
                        exceptionDetail := e }] }

/-- The minimal valid spec substituted by
`IgnitionClient.get_openapi_spec` when the fetch fails. -/
def minimalOpenapiSpec : Value :=
  .obj [("openapi", .str "3.0.0"),
        ("info", .obj [("title", .str "Ignition Gateway API"),
                       ("version", .str "1.0.0")]),
        ("paths", .obj [])]

/-- Embedding of `IgnitionClient.get_openapi_spec`: the fetched
document on success, the minimal valid spec on any exception. -/
def getOpenapiSpec (fetched : Except String Value) : Value :=
  match fetched with
  | .ok v => v
  | .error _ => minimalOpenapiSpec

/-! ## Spec-side definitions for comparison with the code

`claimSanitizeToolName` renders the name-derivation algorithm exactly
as claim C3 words it; `amendedSanitizeToolName` renders the amended
wording. They are compared against `sanitizeToolName`, the embedding
of the code. -/

/-- Path-derived branch as claim C3 words it: split into segments,
drop `data`/`api`/`v1`, strip braces, join with `_`, prepend the
lower-cased method, cap at 50 characters — and nothing else (in
particular no replacement of `-` by `_` in the joined string). -/
def claimPathDerivedName (path method : String) : String :=
  let parts := pySplitSlash (stripSlashes path)
  let parts := parts.filter (fun p => !(p == "data" || p == "api" || p == "v1"))
  let parts := parts.map (fun p => pyReplace (pyReplace p "\x7b" "") "\x7d" "")
  pyTake (pyLower method ++ "_" ++ String.intercalate "_" parts) 50

/-- Claim C3's full algorithm (the `operationId` branch reads as the
code does; a present-but-empty id counts as absent). -/
def claimSanitizeToolName (path method : String) (operationId : Option String) : String :=
  match operationId with
  | some oid =>
      if oid ≠ "" then pyLower (pyReplace (pyReplace oid "-" "_") " " "_")
      else claimPathDerivedName path method
  | none => claimPathDerivedName path method

/-- Path-derived branch as amended: after joining the kept segments
with `_`, the joined string additionally has `-` replaced by `_`
before the method prefix and the 50-character cap are applied. -/
def amendedPathDerivedName (path method : String) : String :=
  let parts := pySplitSlash (stripSlashes path)
  let parts := parts.filter (fun p => !(p == "data" || p == "api" || p == "v1"))
  let parts := parts.map (fun p => pyReplace (pyReplace p "\x7b" "") "\x7d" "")
  pyTake (pyLower method ++ "_" ++ pyReplace (String.intercalate "_" parts) "-" "_") 50

/-- The amended claim C3 algorithm. -/
def amendedSanitizeToolName (path method : String) (operationId : Option String) : String :=
  match operationId with
  | some oid =>
      if oid ≠ "" then pyLower (pyReplace (pyReplace oid "-" "_") " " "_")
      else amendedPathDerivedName path method
  | none => amendedPathDerivedName path method

/-- Condition under which `routeStep` sends an argument to the request
body (first branch of the key inspection). -/
def routesToBody (kv : String × Value) : Bool := pyStartsWith kv.1 "body_"

/-- Condition under which `routeStep` substitutes an argument into the
path (second branch: not `body_`-prefixed, placeholder present in the
original template). -/
def routesToPath (path : String) (kv : String × Value) : Bool :=
  !pyStartsWith kv.1 "body_" && pyContains path (braceKey kv.1)

/-- Condition under which `routeStep` sends an argument to the query
mapping (the residual branch). -/
def routesToQuery (path : String) (kv : String × Value) : Bool :=
  !pyStartsWith kv.1 "body_" && !pyContains path (braceKey kv.1)

/-! ## Helper lemmas -/

/-- Unfolding of the inclusion policy as a conjunction. -/
theorem shouldIncludeEndpoint_eq_true_iff (path method : String) (op : Operation) :
    shouldIncludeEndpoint path method op = true ↔
      (op.deprecated = false ∧ ∃ pre ∈ managementPatterns, pyStartsWith path pre = true) := by
  cases h : op.deprecated
  · simp [shouldIncludeEndpoint, h, List.any_eq_true]
  · simp [shouldIncludeEndpoint, h]

/-- Membership in the generated tool list, unfolded to the producing
entry of the `paths` mapping. -/
theorem mem_generateTools {spec : OpenApiSpec} {t : Tool} :
    t ∈ generateTools spec ↔
      ∃ pe ∈ spec.paths.getD [], ∃ mo ∈ pe.2,
        pyLower mo.1 ∈ httpMethods ∧
        shouldIncludeEndpoint pe.1 mo.1 mo.2 = true ∧
        t = mkTool pe.1 mo.1 mo.2 := by
  unfold generateTools
  rw [(List.mergeSort_perm _ _).mem_iff]
  simp only [List.mem_flatMap, List.mem_filterMap]
  constructor
  · rintro ⟨pe, hpe, mo, hmo, hf⟩
    by_cases hm : pyLower mo.1 ∈ httpMethods
    · rw [if_pos hm] at hf
      by_cases hi : shouldIncludeEndpoint pe.1 mo.1 mo.2 = true
      · rw [if_pos hi] at hf
        exact ⟨pe, hpe, mo, hmo, hm, hi, (Option.some.inj hf).symm⟩
      · rw [if_neg hi] at hf; cases hf
    · rw [if_neg hm] at hf; cases hf
  · rintro ⟨pe, hpe, mo, hmo, hm, hi, ht⟩
    exact ⟨pe, hpe, mo, hmo, by rw [if_pos hm, if_pos hi, ht]⟩

/-- The Python string order is total. -/
theorem charListLe_total (a : List Char) : ∀ b, (charListLe a b || charListLe b a) = true := by
  induction a with
  | nil => intro b; cases b <;> simp [charListLe]
  | cons x xs ih =>
    intro b
    cases b with
    | nil => simp [charListLe]
    | cons y ys =>
      by_cases hxy : x = y
      · subst hxy
        simpa [charListLe] using ih ys
      · have hyx : ¬ y = x := fun h => hxy h.symm
        rcases lt_or_gt_of_ne hxy with h | h
        · simp [charListLe, hxy, hyx, h]
        · simp [charListLe, hxy, hyx, h, le_of_lt h]

/-- The Python string order is transitive. -/
theorem charListLe_trans (a : List Char) : ∀ b c,
    charListLe a b = true → charListLe b c = true → charListLe a c = true := by
  induction a with
  | nil => intro b c _ _; rfl
  | cons x xs ih =>
    intro b c hab hbc
    cases b with
    | nil => simp [charListLe] at hab
    | cons y ys =>
      cases c with
      | nil => simp [charListLe] at hbc
      | cons z zs =>
        by_cases hxy : x = y <;> by_cases hyz : y = z
        · subst hxy; subst hyz
          simp only [charListLe, if_pos rfl] at hab hbc ⊢
          exact ih ys zs hab hbc
        · subst hxy
          simp only [charListLe, if_pos rfl, if_neg hyz] at hab hbc ⊢
          exact hbc
        · subst hyz
          simp only [charListLe, if_pos rfl, if_neg hxy] at hab hbc ⊢
          exact hab
        · simp only [charListLe, if_neg hxy, if_neg hyz, decide_eq_true_eq] at hab hbc
          have hxz : x < z := lt_trans hab hbc
          simp [charListLe, ne_of_lt hxz, hxz]

/-- Filtering first changes nothing when the function already rejects
what the filter drops. -/
theorem filterMap_filter_eq_of_none {α β : Type} (p : α → Bool) (f : α → Option β)
    (h : ∀ x, p x = false → f x = none) :
    ∀ l : List α, (l.filter p).filterMap f = l.filterMap f := by
  intro l
  induction l with
  | nil => rfl
  | cons x l ih =>
    cases hp : p x with
    | true => simp [List.filter_cons, hp, List.filterMap_cons, ih]
    | false => simp [List.filter_cons, hp, List.filterMap_cons, h x hp, ih]

/-- Closed form of the argument-routing fold: each bucket is the
filter of the arguments by its branch condition (in order), the body
keys are stripped, and the final path is the left fold of the
substitutions over the path-routed arguments. -/
theorem routeStep_foldl (path : String) (args : List (String × Value)) :
    ∀ st : SplitState,
    args.foldl (routeStep path) st =
      { finalPath := (args.filter (routesToPath path)).foldl
          (fun p kv => pyReplace p (braceKey kv.1) (pyStr kv.2)) st.finalPath
        pathParams := st.pathParams ++ args.filter (routesToPath path)
        bodyParams := st.bodyParams ++
          (args.filter routesToBody).map (fun kv => (pyDrop kv.1 5, kv.2))
        queryParams := st.queryParams ++ args.filter (routesToQuery path) } := by
  induction args with
  | nil => intro st; simp
  | cons kv args ih =>
    intro st
    rw [List.foldl_cons, ih]
    by_cases hb : pyStartsWith kv.1 "body_"
    · simp [routeStep, routesToBody, routesToPath, routesToQuery, hb, List.filter_cons]
    · by_cases hc : pyContains path (braceKey kv.1)
      · simp [routeStep, routesToBody, routesToPath, routesToQuery, hb, hc, List.filter_cons]
      · simp [routeStep, routesToBody, routesToPath, routesToQuery, hb, hc, List.filter_cons]

/-- The routing fold, started from the initial state of
`_execute_api_call`. -/
theorem routeArguments_eq (path : String) (args : List (String × Value)) :
    routeArguments path args =
      { finalPath := (args.filter (routesToPath path)).foldl
          (fun p kv => pyReplace p (braceKey kv.1) (pyStr kv.2)) path
        pathParams := args.filter (routesToPath path)
        bodyParams := (args.filter routesToBody).map (fun kv => (pyDrop kv.1 5, kv.2))
        queryParams := args.filter (routesToQuery path) } := by
  unfold routeArguments
  rw [routeStep_foldl]
  simp

/-! ## The claims -/

/-- C1: for an operation of the loaded spec (an entry of a path item
under one of the five handled HTTP method keys), the generated tool
set contains a corresponding tool definition if and only if the
operation is not marked deprecated and its path starts with one of the
fixed allow-listed management-plane prefixes. Exclusion is silent: the
generator is a total function, so no error is possible. -/
theorem claim1_inclusion_policy (spec : OpenApiSpec)
    (path : String) (pathItem : List (String × Operation))
    (method : String) (op : Operation)
    (hpe : (path, pathItem) ∈ spec.paths.getD [])
    (hmo : (method, op) ∈ pathItem)
    (hm : pyLower method ∈ httpMethods) :
    (∃ t ∈ generateTools spec,
        t.ignitionPath = path ∧ t.ignitionMethod = pyUpper method ∧
        t.ignitionOperation = op) ↔
      (op.deprecated = false ∧ ∃ pre ∈ managementPatterns, pyStartsWith path pre = true) := by
  constructor
  · rintro ⟨t, ht, hp, hmeth, hop⟩
    rcases mem_generateTools.mp ht with ⟨pe, hpe2, mo, hmo2, hm2, hi, rfl⟩
    rw [shouldIncludeEndpoint_eq_true_iff] at hi
    have hp2 : pe.1 = path := hp
    have hop2 : mo.2 = op := hop
    rw [← hp2, ← hop2]
    exact hi
  · rintro hrhs
    refine ⟨mkTool path method op, ?_, rfl, rfl, rfl⟩
    exact mem_generateTools.mpr ⟨(path, pathItem), hpe, (method, op), hmo, hm,
      (shouldIncludeEndpoint_eq_true_iff _ _ _).mpr hrhs, rfl⟩

theorem claim1_inclusion_policy_witness :
    (∃ t ∈ generateTools { paths := some [("/data/api/v1/projects",
          [("get", { operationId := none, summary := none, deprecated := false,
                     parameters := [], requestBody := none })])] },
        t.ignitionPath = "/data/api/v1/projects" ∧ t.ignitionMethod = pyUpper "get" ∧
        t.ignitionOperation = { operationId := none, summary := none, deprecated := false,
                                parameters := [], requestBody := none }) ↔
      (({ operationId := none, summary := none, deprecated := false,
          parameters := [], requestBody := none } : Operation).deprecated = false ∧
       ∃ pre ∈ managementPatterns, pyStartsWith "/data/api/v1/projects" pre = true) :=
  claim1_inclusion_policy _ "/data/api/v1/projects"
    [("get", { operationId := none, summary := none, deprecated := false,
               parameters := [], requestBody := none })]
    "get" _ (List.mem_singleton.mpr rfl) (List.mem_singleton.mpr rfl) (by decide)

/-- C4: an OpenAPI document without a `paths` key generates the empty
tool list; the generator is a total function, so no exception can be
raised. -/
theorem claim4_missing_paths_yields_empty :
    generateTools { paths := none } = [] := by
  rw [show generateTools { paths := none } =
      (([] : List Tool).mergeSort (fun a b => pyStrLe a.ignitionPath b.ignitionPath)) from rfl]
  exact List.mergeSort_nil

/-- C9: generation is deterministic (a pure function of the spec:
running it twice gives the same list, names and order included), and
the output is sorted by the raw `_ignition_path` string under the
Python string order. -/
theorem claim9_generate_deterministic_sorted (spec : OpenApiSpec) :
    generateTools spec = generateTools spec ∧
      List.Pairwise (fun a b => pyStrLe a.ignitionPath b.ignitionPath = true)
        (generateTools spec) := by
  refine ⟨rfl, ?_⟩
  unfold generateTools
  exact List.sorted_mergeSort
    (fun a b c hab hbc =>
      charListLe_trans a.ignitionPath.data b.ignitionPath.data c.ignitionPath.data hab hbc)
    (fun a b => charListLe_total a.ignitionPath.data b.ignitionPath.data) _

/-- C10: entries of a path item whose lower-cased key is not one of
the five handled HTTP methods produce no tool: generation gives the
same result on the spec with those entries removed, so neither the
deprecation flag nor the allow-list is ever consulted for them. -/
theorem claim10_non_method_keys_skipped (spec : OpenApiSpec) :
    generateTools spec =
      generateTools
        { paths := spec.paths.map (fun ps =>
            ps.map (fun pe => (pe.1, pe.2.filter (fun mo => pyLower mo.1 ∈ httpMethods)))) } := by
  rcases spec with ⟨paths⟩
  cases paths with
  | none => rfl
  | some ps =>
    unfold generateTools
    simp only [Option.map_some', Option.getD_some]
    congr 1
    induction ps with
    | nil => rfl
    | cons pe ps ih =>
      simp only [List.map_cons, List.flatMap_cons, ih]
      congr 1
      refine (filterMap_filter_eq_of_none _ _ (fun mo hmo => ?_) pe.2).symm
      simp only [decide_eq_false_iff_not] at hmo
      exact if_neg hmo

/-- C2: in a generated-tool invocation, a `body_`-prefixed argument is
unwrapped into the JSON body under its stripped key and never reaches
the query mapping; a non-prefixed argument whose placeholder occurs in
the path template is recorded as a path parameter — the final path is
exactly the fold of the placeholder substitutions over those
arguments — and is never sent as a query parameter; every remaining
argument becomes a query parameter. The last conjunct ties the buckets
to the issued request. -/
theorem claim2_argument_routing (tool : Tool) (args : List (String × Value)) :
    (∀ kv ∈ args, pyStartsWith kv.1 "body_" = true →
        (pyDrop kv.1 5, kv.2) ∈ (routeArguments tool.ignitionPath args).bodyParams ∧
        ∀ q ∈ (routeArguments tool.ignitionPath args).queryParams, q.1 ≠ kv.1) ∧
    (∀ kv ∈ args, pyStartsWith kv.1 "body_" = false →
        pyContains tool.ignitionPath (braceKey kv.1) = true →
        kv ∈ (routeArguments tool.ignitionPath args).pathParams ∧
        ∀ q ∈ (routeArguments tool.ignitionPath args).queryParams, q.1 ≠ kv.1) ∧
    (routeArguments tool.ignitionPath args).finalPath =
      (args.filter (routesToPath tool.ignitionPath)).foldl
        (fun p kv => pyReplace p (braceKey kv.1) (pyStr kv.2)) tool.ignitionPath ∧
    (∀ kv ∈ args, pyStartsWith kv.1 "body_" = false →
        pyContains tool.ignitionPath (braceKey kv.1) = false →
        kv ∈ (routeArguments tool.ignitionPath args).queryParams) ∧
    executeApiCall tool args =
      { method := tool.ignitionMethod
        path := (routeArguments tool.ignitionPath args).finalPath
        kwargs :=
          { params := if (routeArguments tool.ignitionPath args).queryParams.isEmpty
                      then none else some (routeArguments tool.ignitionPath args).queryParams
            json := if (routeArguments tool.ignitionPath args).bodyParams.isEmpty
                    then none
                    else some (Value.obj (routeArguments tool.ignitionPath args).bodyParams)
            headers := none } } := by
  refine ⟨?_, ?_, ?_, ?_, rfl⟩
  all_goals rw [routeArguments_eq]
  · intro kv hkv hb
    constructor
    · exact List.mem_map.mpr ⟨kv, List.mem_filter.mpr ⟨hkv, hb⟩, rfl⟩
    · intro q hq hqk
      have hqc := (List.mem_filter.mp hq).2
      rw [routesToQuery, hqk, hb] at hqc
      simp at hqc
  · intro kv hkv hb hc
    constructor
    · exact List.mem_filter.mpr ⟨hkv, by rw [routesToPath, hb, hc]; rfl⟩
    · intro q hq hqk
      have hqc := (List.mem_filter.mp hq).2
      rw [routesToQuery, hqk, hc] at hqc
      simp at hqc
  · intro kv hkv hb hc
    exact List.mem_filter.mpr ⟨hkv, by rw [routesToQuery, hb, hc]; rfl⟩

theorem claim2_argument_routing_witness :
    ((pyDrop "body_x" 5, Value.int 2) ∈
        (routeArguments (mkTool "/data/api/v1/tags/\x7bname\x7d" "post"
            { operationId := none, summary := none, deprecated := false,
              parameters := [], requestBody := none }).ignitionPath
          [("name", Value.str "p1"), ("body_x", Value.int 2), ("q", Value.bool true)]).bodyParams) ∧
    (("name", Value.str "p1") ∈
        (routeArguments (mkTool "/data/api/v1/tags/\x7bname\x7d" "post"
            { operationId := none, summary := none, deprecated := false,
              parameters := [], requestBody := none }).ignitionPath
          [("name", Value.str "p1"), ("body_x", Value.int 2), ("q", Value.bool true)]).pathParams) ∧
    (("q", Value.bool true) ∈
        (routeArguments (mkTool "/data/api/v1/tags/\x7bname\x7d" "post"
            { operationId := none, summary := none, deprecated := false,
              parameters := [], requestBody := none }).ignitionPath
          [("name", Value.str "p1"), ("body_x", Value.int 2), ("q", Value.bool true)]).queryParams) := by
  have h := claim2_argument_routing
    (mkTool "/data/api/v1/tags/\x7bname\x7d" "post"
      { operationId := none, summary := none, deprecated := false,
        parameters := [], requestBody := none })
    [("name", Value.str "p1"), ("body_x", Value.int 2), ("q", Value.bool true)]
  refine ⟨?_, ?_, ?_⟩
  · exact (h.1 ("body_x", Value.int 2)
      (List.mem_cons_of_mem _ (List.mem_cons_self _ _)) (by decide)).1
  · exact (h.2.1 ("name", Value.str "p1") (List.mem_cons_self _ _) (by decide) (by decide)).1
  · exact h.2.2.2.1 ("q", Value.bool true)
      (List.mem_cons_of_mem _ (List.mem_cons_of_mem _ (List.mem_cons_self _ _)))
      (by decide) (by decide)

/-- C3 counterexample: on the non-deprecated, allow-listed path
`/system/gateway-network/remote-servers/status` (the gateway-status
endpoint the client itself calls) with method `get` and no
`operationId`, the code replaces the hyphens with underscores in the
joined segment string, a step the claim's algorithm omits, so the two
names differ. -/
theorem claim3_counterexample_hyphen :
    sanitizeToolName "/system/gateway-network/remote-servers/status" "get" none =
        "get_system_gateway_network_remote_servers_status" ∧
    claimSanitizeToolName "/system/gateway-network/remote-servers/status" "get" none =
        "get_system_gateway-network_remote-servers_status" ∧
    sanitizeToolName "/system/gateway-network/remote-servers/status" "get" none ≠
      claimSanitizeToolName "/system/gateway-network/remote-servers/status" "get" none ∧
    shouldIncludeEndpoint "/system/gateway-network/remote-servers/status" "get"
      { operationId := none, summary := none, deprecated := false,
        parameters := [], requestBody := none } = true := by
  refine ⟨by decide, by decide, by decide, by decide⟩

/-- C3 amended: the derived tool name is exactly the claim's algorithm
with one addition — in the path-derived branch, after joining the kept
segments with `_`, hyphens in the joined string are also replaced by
`_` (before the method prefix and the 50-character cap). -/
theorem claim3_amended_name_derivation (path method : String) (oid : Option String) :
    sanitizeToolName path method oid = amendedSanitizeToolName path method oid := by
  cases oid <;> rfl

/-- C5: a tool name that matches neither the custom tool definition
nor any generated tool name dispatches to the "not found" error
result, with no network call and no log record; dispatch is a total
function, so no exception is raised. -/
theorem claim5_unknown_tool_error (cfg : WebdevSettings) (cache : List Tool)
    (transport : NetworkCall → Except String Value)
    (name : String) (args : List (String × Value))
    (hcustom : name ≠ "create_or_update_tag")
    (hgen : ∀ t ∈ cache, t.name ≠ name) :
    callTool cfg cache transport name args =
      { result := { text := "Tool '" ++ name ++ "' not found", isError := true }
        calls := [], log := [] } := by
  unfold callTool
  rw [if_neg hcustom]
  have hfind : cache.find? (fun t => t.name == name) = none := by
    rw [List.find?_eq_none]
    intro t ht
    simpa using hgen t ht
  rw [hfind]
  rfl

theorem claim5_unknown_tool_error_witness :
    callTool { webdevTagEndpoint := "tags", webdevTagMethod := "" } []
        (fun _ => Except.ok Value.null) "no_such_tool" [] =
      { result := { text := "Tool '" ++ "no_such_tool" ++ "' not found", isError := true }
        calls := [], log := [] } :=
  claim5_unknown_tool_error _ _ _ _ _ (by decide) (by simp)

/-- C7: when the transport raises for a generated tool, dispatch
returns the generic error text built only from the tool name — the
same text whatever the exception says, so nothing of the raw message
reaches the caller — while the log records the tool name, the rendered
argument mapping and the full exception detail. -/
theorem claim7_transport_error_masked (cfg : WebdevSettings) (cache : List Tool)
    (transport : NetworkCall → Except String Value)
    (name : String) (args : List (String × Value)) (tool : Tool) (e : String)
    (hcustom : name ≠ "create_or_update_tag")
    (hfind : cache.find? (fun t => t.name == name) = some tool)
    (herr : transport (executeApiCall tool args) = Except.error e) :
    (callTool cfg cache transport name args).result.isError = true ∧
    (callTool cfg cache transport name args).result.text =
      "Error executing " ++ name ++ ". Please contact support." ∧
    (callTool cfg cache transport name args).log =
      [{ message := "Error executing tool '" ++ name ++ "' with arguments " ++
                    pyRepr (Value.obj args)
         exceptionDetail := e }] ∧
    (∀ (transportB : NetworkCall → Except String Value) (eB : String),
       transportB (executeApiCall tool args) = Except.error eB →
       (callTool cfg cache transportB name args).result.text =
         (callTool cfg cache transport name args).result.text) := by
  have hthis : callTool cfg cache transport name args =
      { result := { text := "Error executing " ++ name ++ ". Please contact support."
                    isError := true }
        calls := [executeApiCall tool args]
        log := [{ message := "Error executing tool '" ++ name ++ "' with arguments " ++
                             pyRepr (Value.obj args)
                  exceptionDetail := e }] } := by
    unfold callTool
    rw [if_neg hcustom, hfind]
    dsimp only
    rw [herr]
  refine ⟨by rw [hthis], by rw [hthis], by rw [hthis], ?_⟩
  intro transportB eB herrB
  have hthat : callTool cfg cache transportB name args =
      { result := { text := "Error executing " ++ name ++ ". Please contact support."
                    isError := true }
        calls := [executeApiCall tool args]
        log := [{ message := "Error executing tool '" ++ name ++ "' with arguments " ++
                             pyRepr (Value.obj args)
                  exceptionDetail := eB }] } := by
    unfold callTool
    rw [if_neg hcustom, hfind]
    dsimp only
    rw [herrB]
  rw [hthis, hthat]

theorem claim7_transport_error_masked_witness :
    ((callTool { webdevTagEndpoint := "tags", webdevTagMethod := "" }
        [mkTool "/data/api/v1/projects" "get"
          { operationId := none, summary := none, deprecated := false,
            parameters := [], requestBody := none }]
        (fun _ => Except.error "500 Internal Server Error for url /data/api/v1/projects")
        "get_projects" []).result.text =
      "Error executing " ++ "get_projects" ++ ". Please contact support.") ∧
    ((callTool { webdevTagEndpoint := "tags", webdevTagMethod := "" }
        [mkTool "/data/api/v1/projects" "get"
          { operationId := none, summary := none, deprecated := false,
            parameters := [], requestBody := none }]
        (fun _ => Except.error "500 Internal Server Error for url /data/api/v1/projects")
        "get_projects" []).result.text.data.isPrefixOf
      "500 Internal Server Error".data = false) := by
  have h := claim7_transport_error_masked
    { webdevTagEndpoint := "tags", webdevTagMethod := "" }
    [mkTool "/data/api/v1/projects" "get"
      { operationId := none, summary := none, deprecated := false,
        parameters := [], requestBody := none }]
    (fun _ => Except.error "500 Internal Server Error for url /data/api/v1/projects")
    "get_projects" []
    (mkTool "/data/api/v1/projects" "get"
      { operationId := none, summary := none, deprecated := false,
        parameters := [], requestBody := none })
    "500 Internal Server Error for url /data/api/v1/projects"
    (by decide) rfl rfl
  refine ⟨h.2.1, ?_⟩
  rw [h.2.1]
  decide

/-- C6: invoking the custom tag tool with no `payloadOverride` and no
truthy `tagPath` returns a validation error result locally — an error
result with no network call and no log record, whatever else the
arguments contain; invoking it with `tagPath="Tanks/Level1"` and
`value=42` issues exactly one WebDev request whose JSON payload is the
object `path: "Tanks/Level1", value: 42` and whose method is the
configured default; with no configured method that default is `POST`. -/
theorem claim6_custom_tag_tool :
    (∀ (cfg : WebdevSettings) (transport : NetworkCall → Except String Value)
        (args : List (String × Value)),
        args.lookup "payloadOverride" = none →
        (args.lookup "tagPath").any pyTruthy = false →
        (toolCreateOrUpdateTag cfg transport args).result.isError = true ∧
        (toolCreateOrUpdateTag cfg transport args).calls = [] ∧
        (toolCreateOrUpdateTag cfg transport args).log = []) ∧
    (∀ (cfg : WebdevSettings) (transport : NetworkCall → Except String Value),
        lstripSlashes cfg.webdevTagEndpoint ≠ "" →
        (toolCreateOrUpdateTag cfg transport
            [("tagPath", Value.str "Tanks/Level1"), ("value", Value.int 42)]).calls =
          [{ method := resolveWebdevMethod cfg none
             path := "/system/webdev/" ++ lstripSlashes cfg.webdevTagEndpoint
             kwargs := { params := none
                         json := some (Value.obj
                           [("path", Value.str "Tanks/Level1"), ("value", Value.int 42)])
                         headers := some [] } }]) ∧
    (∀ ep : String,
        resolveWebdevMethod { webdevTagEndpoint := ep, webdevTagMethod := "" } none = "POST") := by
  refine ⟨?_, ?_, fun ep => rfl⟩
  · intro cfg transport args hpo htp
    simp only [toolCreateOrUpdateTag, hpo, htp, Option.any_none, Option.isNone_none,
               Bool.not_false, Bool.and_self, Bool.false_eq_true, if_false, Bool.true_and,
               if_true, Bool.and_true]
    split
    · exact ⟨rfl, rfl, rfl⟩
    split
    · exact ⟨rfl, rfl, rfl⟩
    split
    · exact ⟨rfl, rfl, rfl⟩
    split
    · exact ⟨rfl, rfl, rfl⟩
    exact ⟨rfl, rfl, rfl⟩
  · intro cfg transport hres
    have h1 : buildWebdevPath cfg none =
        Except.ok ("/system/webdev/" ++ lstripSlashes cfg.webdevTagEndpoint) := by
      rw [show buildWebdevPath cfg none =
          (if lstripSlashes cfg.webdevTagEndpoint = "" then
            Except.error (PyErr.valueError
              ("WebDev tag endpoint not configured. Set IGNITION_MCP_WEBDEV_TAG_ENDPOINT or" ++
               " provide resourcePath."))
          else Except.ok ("/system/webdev/" ++ lstripSlashes cfg.webdevTagEndpoint)) from rfl,
        if_neg hres]
    have h0 : createOrUpdateTagCall cfg (some (Value.str "Tanks/Level1")) (Value.int 42)
        none none none none none none none none none =
        Except.bind (buildWebdevPath cfg none) (fun path =>
          pure { method := resolveWebdevMethod cfg none
                 path := path
                 kwargs := { params := none
                             json := some (Value.obj [("path", Value.str "Tanks/Level1"),
                                                      ("value", Value.int 42)])
                             headers := some [] } }) := rfl
    have hcall : createOrUpdateTagCall cfg (some (Value.str "Tanks/Level1")) (Value.int 42)
        none none none none none none none none none =
        Except.ok { method := resolveWebdevMethod cfg none
                    path := "/system/webdev/" ++ lstripSlashes cfg.webdevTagEndpoint
                    kwargs := { params := none
                                json := some (Value.obj [("path", Value.str "Tanks/Level1"),
                                                         ("value", Value.int 42)])
                                headers := some [] } } := by
      rw [h0, h1]
      rfl
    have hstep : toolCreateOrUpdateTag cfg transport
        [("tagPath", Value.str "Tanks/Level1"), ("value", Value.int 42)] =
        tagCallOutcome transport
          (createOrUpdateTagCall cfg (some (Value.str "Tanks/Level1")) (Value.int 42)
            none none none none none none none none none) := rfl
    rw [hstep, hcall]
    cases htr : transport { method := resolveWebdevMethod cfg none
                            path := "/system/webdev/" ++ lstripSlashes cfg.webdevTagEndpoint
                            kwargs := { params := none
                                        json := some (Value.obj
                                          [("path", Value.str "Tanks/Level1"),
                                           ("value", Value.int 42)])
                                        headers := some [] } } with
    | ok v => simp [tagCallOutcome, htr]
    | error e => simp [tagCallOutcome, htr]

theorem claim6_custom_tag_tool_witness :
    ((toolCreateOrUpdateTag { webdevTagEndpoint := "tags", webdevTagMethod := "" }
        (fun _ => Except.ok Value.null) []).result.isError = true ∧
     (toolCreateOrUpdateTag { webdevTagEndpoint := "tags", webdevTagMethod := "" }
        (fun _ => Except.ok Value.null) []).calls = []) ∧
    (toolCreateOrUpdateTag { webdevTagEndpoint := "tags", webdevTagMethod := "" }
        (fun _ => Except.ok Value.null)
        [("tagPath", Value.str "Tanks/Level1"), ("value", Value.int 42)]).calls =
      [{ method := resolveWebdevMethod { webdevTagEndpoint := "tags", webdevTagMethod := "" } none
         path := "/system/webdev/" ++
           lstripSlashes ({ webdevTagEndpoint := "tags", webdevTagMethod := "" }
             : WebdevSettings).webdevTagEndpoint
         kwargs := { params := none
                     json := some (Value.obj
                       [("path", Value.str "Tanks/Level1"), ("value", Value.int 42)])
                     headers := some [] } }] ∧
    resolveWebdevMethod { webdevTagEndpoint := "tags", webdevTagMethod := "" } none = "POST" := by
  have h := claim6_custom_tag_tool
  refine ⟨?_, h.2.1 _ (fun _ => Except.ok Value.null) (by decide), h.2.2 "tags"⟩
  have ha := h.1 { webdevTagEndpoint := "tags", webdevTagMethod := "" }
    (fun _ => Except.ok Value.null) [] rfl rfl
  exact ⟨ha.1, ha.2.1⟩

/-- C8: a failing OpenAPI-spec fetch is caught and replaced by the
minimal valid spec object, whatever the exception was: the document
with `openapi: "3.0.0"`, an `info` object, and an empty `paths`
mapping. -/
theorem claim8_openapi_fetch_fallback (e : String) :
    getOpenapiSpec (Except.error e) = minimalOpenapiSpec ∧
    minimalOpenapiSpec =
      Value.obj [("openapi", Value.str "3.0.0"),
                 ("info", Value.obj [("title", Value.str "Ignition Gateway API"),
                                     ("version", Value.str "1.0.0")]),
                 ("paths", Value.obj [])] :=
  ⟨rfl, rfl⟩

end IgnitionMcp
